import Mathlib

/-!
Verification of the weight-estimation core of the 3D Print Weight Estimator
(`src/app.py`). The single piece of original logic is `calculate_weight`
(app.py lines 58-80): it loads the mesh, reads five numeric parameters from
a dict, evaluates one closed-form arithmetic expression, and returns the
result rounded to two decimal places; any exception is caught and `None`
is returned.

The embedding works over `ℚ` (Python floats are modelled as exact
rationals). Python's `round(x, 2)` rounds half to even, which
`roundHalfEven` reproduces. Mesh loading (`trimesh.load` + `.volume`),
an external collaborator, is modelled as an `Except String ℚ`: either an
exception (caught by the `try`) or the signed volume in cubic millimeters
that trimesh reports.
-/

namespace WeightEstimator

/-- The parameter dict built at app.py lines 118-125 / 164-171: the five
numeric fields read by `calculate_weight` plus the `support` flag, which is
stored but never read by the computation. -/
structure PrintParams where
  material_density : ℚ
  infill_density : ℚ
  wall_thickness : ℚ
  top_bottom_thickness : ℚ
  layer_height : ℚ
  support : Bool
deriving DecidableEq

/-- Python's `round` to an integer: round half to even (banker's rounding),
as used by `round(weight, 2)` at app.py line 77. -/
def roundHalfEven (q : ℚ) : ℤ :=
  if q - ⌊q⌋ < 1/2 then ⌊q⌋
  else if 1/2 < q - ⌊q⌋ then ⌊q⌋ + 1
  else if ⌊q⌋ % 2 = 0 then ⌊q⌋ else ⌊q⌋ + 1

/-- Python's `round(q, 2)`: round to the nearest multiple of 1/100,
ties to even. -/
def round2 (q : ℚ) : ℚ := (roundHalfEven (q * 100) : ℚ) / 100

/-- The arithmetic body of `calculate_weight` (app.py lines 62-75), before
the final `round(weight, 2)`: the unrounded weight in grams computed from
the mesh volume (mm^3) and the parameter record. -/
def weight_raw (volume_mm3 : ℚ) (params : PrintParams) : ℚ :=
  let volume_cm3 := volume_mm3 / 1000
  let density := params.material_density
  let infill := params.infill_density / 100
  let wall_thickness := params.wall_thickness
  let top_bottom := params.top_bottom_thickness
  let _layer_height := params.layer_height
  let shell_factor := 1 + (wall_thickness / 2) * (1 - infill)
  let top_bottom_factor := 1 + (top_bottom / 5) * (1 - infill)
  let adjusted_volume := volume_cm3 * (0.1 + 0.7 * infill + 0.2 * shell_factor * top_bottom_factor)
  adjusted_volume * density

/-- `calculate_weight` (app.py lines 58-80). The `try` block loads the mesh
and evaluates the formula; on success the weight rounded to 2 decimals is
returned, and any exception (e.g. from `trimesh.load`) is caught, reported
via `st.error`, and `None` is returned. -/
def calculate_weight (stl_file : Except String ℚ) (params : PrintParams) : Option ℚ :=
  match stl_file with
  | Except.error _ => none
  | Except.ok volume_mm3 => some (round2 (weight_raw volume_mm3 params))

/-- The weight formula exactly as the spec words it in section 4.1, steps
1-7, independently of the source: volume_cm3 = volume_mm3 / 1000;
infill = infill_density_percent / 100; shell_factor, top_bottom_factor,
adjusted_volume with the 0.1 / 0.7 / 0.2 constants; multiply by density;
round to 2 decimals. -/
def spec_weight (volume_mm3 : ℚ) (p : PrintParams) : ℚ :=
  let volume_cm3 := volume_mm3 / 1000
  let infill := p.infill_density / 100
  let shell_factor := 1 + (p.wall_thickness / 2) * (1 - infill)
  let top_bottom_factor := 1 + (p.top_bottom_thickness / 5) * (1 - infill)
  let adjusted_volume := volume_cm3 * (0.1 + 0.7 * infill + 0.2 * shell_factor * top_bottom_factor)
  round2 (adjusted_volume * p.material_density)

/-- Python truthiness of the value held in `weight` at app.py lines 131-132
and 177-178: `if weight:` is false for `None` and for `0.0`, true for any
other float. -/
def py_truthy : Option ℚ → Bool
  | none => false
  | some w => decide (w ≠ 0)

/-- Basic-mode display branch (app.py lines 127-134): after the button
press, if no file is uploaded only a warning is shown; otherwise the weight
is computed and shown exactly when `if weight:` is truthy. Returns whether
a weight line is displayed. -/
def basic_mode_shows_weight (uploaded : Option (Except String ℚ)) (params : PrintParams) : Bool :=
  match uploaded with
  | none => false
  | some stl => py_truthy (calculate_weight stl params)

/-- Advanced-mode display branch (app.py lines 173-180), identical logic to
the basic one. -/
def advanced_mode_shows_weight (uploaded : Option (Except String ℚ)) (params : PrintParams) : Bool :=
  match uploaded with
  | none => false
  | some stl => py_truthy (calculate_weight stl params)

/-- The defaults of the Basic-mode form (app.py lines 109-115): PLA
(density 1.24), infill 20 percent, wall 1.2 mm, top/bottom 0.8 mm,
layer height 0.3 mm, no support. -/
def pla_default_params : PrintParams :=
  ⟨1.24, 20, 1.2, 0.8, 0.3, false⟩

/- ------------------------------------------------------------------ -/
/- Helper lemmas (shared)                                              -/
/- ------------------------------------------------------------------ -/

lemma calculate_weight_ok (v : ℚ) (p : PrintParams) :
    calculate_weight (Except.ok v) p = some (round2 (weight_raw v p)) := rfl

lemma weight_raw_zero (p : PrintParams) : weight_raw 0 p = 0 := by
  simp [weight_raw]

lemma roundHalfEven_zero : roundHalfEven 0 = 0 := by
  norm_num [roundHalfEven]

lemma round2_zero : round2 0 = 0 := by
  simp [round2, roundHalfEven_zero]

lemma calculate_weight_zero (p : PrintParams) :
    calculate_weight (Except.ok 0) p = some 0 := by
  rw [calculate_weight_ok, weight_raw_zero, round2_zero]

lemma roundHalfEven_ge_floor (q : ℚ) : ⌊q⌋ ≤ roundHalfEven q := by
  unfold roundHalfEven
  split_ifs <;> omega

lemma roundHalfEven_le_floor_add_one (q : ℚ) : roundHalfEven q ≤ ⌊q⌋ + 1 := by
  unfold roundHalfEven
  split_ifs <;> omega

lemma roundHalfEven_mono {q r : ℚ} (h : q ≤ r) :
    roundHalfEven q ≤ roundHalfEven r := by
  have hf : ⌊q⌋ ≤ ⌊r⌋ := Int.floor_le_floor h
  rcases lt_or_eq_of_le hf with hlt | heq
  · calc roundHalfEven q ≤ ⌊q⌋ + 1 := roundHalfEven_le_floor_add_one q
    _ ≤ ⌊r⌋ := by omega
    _ ≤ roundHalfEven r := roundHalfEven_ge_floor r
  · unfold roundHalfEven
    rw [← heq]
    split_ifs <;> first | omega | (exfalso; linarith)

lemma round2_mono {q r : ℚ} (h : q ≤ r) : round2 q ≤ round2 r := by
  have h1 : roundHalfEven (q * 100) ≤ roundHalfEven (r * 100) :=
    roundHalfEven_mono (by linarith)
  have h2 : ((roundHalfEven (q * 100) : ℤ) : ℚ) ≤ ((roundHalfEven (r * 100) : ℤ) : ℚ) := by
    exact_mod_cast h1
  unfold round2
  linarith

lemma round2_nonpos {q : ℚ} (h : q ≤ 0) : round2 q ≤ 0 := by
  have := round2_mono h
  simpa [round2, roundHalfEven_zero] using this

/-- Monotonicity in the infill fraction of the blend factor
`0.1 + 0.7*infill + 0.2*shell_factor*top_bottom_factor`, valid exactly when
the thicknesses satisfy `w/10 + t/25 + w*t/25 ≤ 7/10`. -/
lemma weight_factor_mono (w t i1 i2 : ℚ) (hw : 0 ≤ w) (ht : 0 ≤ t)
    (h1 : 0 ≤ i1) (h12 : i1 ≤ i2) (h2 : i2 ≤ 1)
    (hc : w/10 + t/25 + w*t/25 ≤ 7/10) :
    0.1 + 0.7*i1 + 0.2 * (1 + w / 2 * (1 - i1)) * (1 + t / 5 * (1 - i1)) ≤
    0.1 + 0.7*i2 + 0.2 * (1 + w / 2 * (1 - i2)) * (1 + t / 5 * (1 - i2)) := by
  nlinarith [mul_nonneg (sub_nonneg.mpr h12) (mul_nonneg hw ht),
             mul_nonneg (mul_nonneg (sub_nonneg.mpr h12) (mul_nonneg hw ht))
               (by linarith : (0:ℚ) ≤ i1 + i2),
             mul_nonneg (sub_nonneg.mpr h12)
               (by nlinarith [mul_nonneg hw ht] : (0:ℚ) ≤ 7/10 - w/10 - t/25 - w*t/25)]

/-- The blend factor is at least 0.3 for infill fractions in [0,1] and
nonnegative thicknesses. -/
lemma weight_factor_ge (w t i : ℚ) (hw : 0 ≤ w) (ht : 0 ≤ t)
    (h1 : 0 ≤ i) (_h2 : i ≤ 1) :
    (3/10 : ℚ) ≤ 0.1 + 0.7*i + 0.2 * (1 + w / 2 * (1 - i)) * (1 + t / 5 * (1 - i)) := by
  have hA : (0:ℚ) ≤ w / 2 * (1 - i) := by nlinarith
  have hB : (0:ℚ) ≤ t / 5 * (1 - i) := by nlinarith
  nlinarith [mul_nonneg hA hB]

/-- A strictly negative mesh volume yields a strictly negative unrounded
weight whenever the parameters are in their valid ranges. -/
lemma weight_raw_neg (v d i w t lh : ℚ) (sup : Bool) (hv : v < 0) (hd : 0 < d)
    (hi0 : 0 ≤ i) (hi1 : i ≤ 100) (hw : 0 ≤ w) (ht : 0 ≤ t) :
    weight_raw v ⟨d, i, w, t, lh, sup⟩ < 0 := by
  have hF := weight_factor_ge w t (i/100) hw ht (by linarith) (by linarith)
  simp only [weight_raw]
  exact mul_neg_of_neg_of_pos
    (mul_neg_of_neg_of_pos (by linarith) (by nlinarith [hF])) hd

/-- For nonnegative volume and density and thicknesses satisfying the
condition `w/10 + t/25 + w*t/25 ≤ 7/10`, the unrounded weight is
non-decreasing in the infill percentage. -/
lemma weight_raw_infill_mono (v d w t lh : ℚ) (sup : Bool) (i1 i2 : ℚ)
    (hv : 0 ≤ v) (hd : 0 ≤ d) (hw : 0 ≤ w) (ht : 0 ≤ t)
    (hcond : w/10 + t/25 + w*t/25 ≤ 7/10)
    (h1 : 0 ≤ i1) (h12 : i1 ≤ i2) (h2 : i2 ≤ 100) :
    weight_raw v ⟨d, i1, w, t, lh, sup⟩ ≤ weight_raw v ⟨d, i2, w, t, lh, sup⟩ := by
  have hF := weight_factor_mono w t (i1/100) (i2/100) hw ht
    (by linarith) (by linarith) (by linarith) hcond
  have hv1000 : (0:ℚ) ≤ v / 1000 := by linarith
  simp only [weight_raw]
  nlinarith [mul_le_mul_of_nonneg_right (mul_le_mul_of_nonneg_left hF hv1000) hd]

/- ------------------------------------------------------------------ -/
/- Claims                                                              -/
/- ------------------------------------------------------------------ -/

/-- C1: for every mesh volume and every parameter record, the code's
`calculate_weight` returns exactly the weight prescribed by the spec's
step-by-step formula (volume/1000, infill/100, the shell and top/bottom
factors, the 0.1 + 0.7·infill + 0.2·shell·top_bottom blend, times density,
rounded to 2 decimals). -/
theorem C1_formula_matches_spec (v : ℚ) (p : PrintParams) :
    calculate_weight (Except.ok v) p = some (spec_weight v p) := rfl

/-- C2: at volume 10000 mm^3 with density 1.24, infill 20, wall 1.2,
top/bottom 0.8, and any layer height (and any support flag), the result is
exactly 7.12. -/
theorem C2_worked_example (lh : ℚ) (sup : Bool) :
    calculate_weight (Except.ok 10000) ⟨1.24, 20, 1.2, 0.8, lh, sup⟩
      = some (712/100) := by
  rw [calculate_weight_ok]
  norm_num [weight_raw, round2, roundHalfEven]

/-- C4: a mesh volume of exactly 0 yields the successful estimate 0.00
grams for every parameter record, not an error. -/
theorem C4_zero_volume_gives_zero (p : PrintParams) :
    calculate_weight (Except.ok 0) p = some 0 :=
  calculate_weight_zero p

/-- C7: `calculate_weight` is deterministic: two runs on identical mesh
results and identical parameter records return the same output. -/
theorem C7_deterministic (m1 m2 : Except String ℚ) (p1 p2 : PrintParams)
    (hm : m1 = m2) (hp : p1 = p2) :
    calculate_weight m1 p1 = calculate_weight m2 p2 := by
  rw [hm, hp]

theorem C7_deterministic_witness :
    calculate_weight (Except.ok 10000) pla_default_params
      = calculate_weight (Except.ok 10000) pla_default_params :=
  C7_deterministic _ _ _ _ rfl rfl

/-- C8: the layer height is read but never used: two parameter records that
differ only in `layer_height` give the same result on every mesh input. -/
theorem C8_layer_height_unused (m : Except String ℚ) (p : PrintParams)
    (lh1 lh2 : ℚ) :
    calculate_weight m { p with layer_height := lh1 }
      = calculate_weight m { p with layer_height := lh2 } := by
  cases m <;> rfl

/-- C9: `calculate_weight` never propagates an exception: on every input it
either returns a rounded number or signals failure with `None` (the
catch-all `except` at app.py lines 78-80). -/
theorem C9_total_no_exception (m : Except String ℚ) (p : PrintParams) :
    (∃ w, calculate_weight m p = some w) ∨ calculate_weight m p = none := by
  cases m with
  | error e => exact Or.inr rfl
  | ok v => exact Or.inl ⟨round2 (weight_raw v p), rfl⟩

/-- C10: a successful zero-gram estimate is displayed exactly like the
failure value `None`: `if weight:` is false for `0.0`, so neither the
Basic nor the Advanced display branch shows a weight line for a
zero-volume mesh, even though the estimate succeeded. -/
theorem C10_zero_weight_hidden (p : PrintParams) :
    calculate_weight (Except.ok 0) p = some 0 ∧
    py_truthy (calculate_weight (Except.ok 0) p) = py_truthy none ∧
    basic_mode_shows_weight (some (Except.ok 0)) p = false ∧
    advanced_mode_shows_weight (some (Except.ok 0)) p = false := by
  refine ⟨calculate_weight_zero p, ?_, ?_, ?_⟩ <;>
    simp [basic_mode_shows_weight, advanced_mode_shows_weight,
      calculate_weight_zero, py_truthy]

/-- C3 counterexample: at mesh volume -10000 mm^3 with the default valid
parameters, `calculate_weight` does not fail: it returns the numeric
estimate -7.12, a negative weight, refuting the claim that a negative
volume always fails with an EstimationError. -/
theorem C3_counterexample :
    calculate_weight (Except.ok (-10000)) pla_default_params = some (-712/100) ∧
    (-712/100 : ℚ) < 0 := by
  refine ⟨?_, by norm_num⟩
  rw [calculate_weight_ok]
  norm_num [pla_default_params, weight_raw, round2, roundHalfEven]

/-- C3 (amended): for a strictly negative mesh volume and valid parameters,
`calculate_weight` does not fail: it returns the rounded weight, which is
non-positive (and strictly negative before rounding). -/
theorem C3_negative_volume_returns_nonpositive (v d i w t lh : ℚ) (sup : Bool)
    (hv : v < 0) (hd : 0 < d) (hi0 : 0 ≤ i) (hi1 : i ≤ 100)
    (hw : 0 < w) (ht : 0 < t) :
    calculate_weight (Except.ok v) ⟨d, i, w, t, lh, sup⟩
        = some (round2 (weight_raw v ⟨d, i, w, t, lh, sup⟩)) ∧
    round2 (weight_raw v ⟨d, i, w, t, lh, sup⟩) ≤ 0 :=
  ⟨rfl, round2_nonpos (le_of_lt
    (weight_raw_neg v d i w t lh sup hv hd hi0 hi1 (le_of_lt hw) (le_of_lt ht)))⟩

theorem C3_negative_volume_witness :
    ((-10000 : ℚ) < 0 ∧ (0:ℚ) < 1.24 ∧ (0:ℚ) ≤ 20 ∧ (20:ℚ) ≤ 100 ∧
      (0:ℚ) < 1.2 ∧ (0:ℚ) < 0.8) ∧
    (calculate_weight (Except.ok (-10000)) ⟨1.24, 20, 1.2, 0.8, 0.3, false⟩
        = some (round2 (weight_raw (-10000) ⟨1.24, 20, 1.2, 0.8, 0.3, false⟩)) ∧
     round2 (weight_raw (-10000) ⟨1.24, 20, 1.2, 0.8, 0.3, false⟩) ≤ 0) :=
  ⟨by norm_num,
   C3_negative_volume_returns_nonpositive (-10000) 1.24 20 1.2 0.8 0.3 false
     (by norm_num) (by norm_num) (by norm_num) (by norm_num) (by norm_num) (by norm_num)⟩

/-- C5 counterexample: with wall = top/bottom = 3 mm (both inside the UI
ranges), volume 10000 mm^3 and density 1.24, raising the infill from 0
percent to 20 percent strictly DECREASES the weight (11.16 g down to
11.05 g), refuting the claimed monotonicity in infill. -/
theorem C5_counterexample :
    calculate_weight (Except.ok 10000) ⟨1.24, 0, 3, 3, 0.3, false⟩
        = some (1116/100) ∧
    calculate_weight (Except.ok 10000) ⟨1.24, 20, 3, 3, 0.3, false⟩
        = some (1105/100) ∧
    (1105/100 : ℚ) < 1116/100 := by
  refine ⟨?_, ?_, by norm_num⟩ <;>
    (rw [calculate_weight_ok]; norm_num [weight_raw, round2, roundHalfEven])

/-- C5 (amended): for fixed positive volume and density, the computed
weight is non-decreasing in the infill percentage over [0,100] provided
the thicknesses satisfy `wall/10 + tb/25 + wall*tb/25 ≤ 7/10` (true of
the UI defaults); without that condition monotonicity fails, and after
rounding only weak monotonicity holds. -/
theorem C5_infill_mono_under_thickness_bound (v d w t lh : ℚ) (sup : Bool)
    (i1 i2 : ℚ) (hv : 0 < v) (hd : 0 < d) (hw : 0 < w) (ht : 0 < t)
    (hcond : w/10 + t/25 + w*t/25 ≤ 7/10)
    (h1 : 0 ≤ i1) (h12 : i1 ≤ i2) (h2 : i2 ≤ 100) :
    calculate_weight (Except.ok v) ⟨d, i1, w, t, lh, sup⟩
        = some (round2 (weight_raw v ⟨d, i1, w, t, lh, sup⟩)) ∧
    calculate_weight (Except.ok v) ⟨d, i2, w, t, lh, sup⟩
        = some (round2 (weight_raw v ⟨d, i2, w, t, lh, sup⟩)) ∧
    round2 (weight_raw v ⟨d, i1, w, t, lh, sup⟩)
        ≤ round2 (weight_raw v ⟨d, i2, w, t, lh, sup⟩) :=
  ⟨rfl, rfl, round2_mono
    (weight_raw_infill_mono v d w t lh sup i1 i2 (le_of_lt hv) (le_of_lt hd)
      (le_of_lt hw) (le_of_lt ht) hcond h1 h12 h2)⟩

theorem C5_infill_mono_witness :
    ((0:ℚ) < 10000 ∧ (0:ℚ) < 1.24 ∧ (0:ℚ) < 1.2 ∧ (0:ℚ) < 0.8 ∧
      (1.2/10 + 0.8/25 + 1.2*0.8/25 : ℚ) ≤ 7/10 ∧
      (0:ℚ) ≤ 20 ∧ (20:ℚ) ≤ 50 ∧ (50:ℚ) ≤ 100) ∧
    (calculate_weight (Except.ok 10000) ⟨1.24, 20, 1.2, 0.8, 0.3, false⟩
        = some (round2 (weight_raw 10000 ⟨1.24, 20, 1.2, 0.8, 0.3, false⟩)) ∧
     calculate_weight (Except.ok 10000) ⟨1.24, 50, 1.2, 0.8, 0.3, false⟩
        = some (round2 (weight_raw 10000 ⟨1.24, 50, 1.2, 0.8, 0.3, false⟩)) ∧
     round2 (weight_raw 10000 ⟨1.24, 20, 1.2, 0.8, 0.3, false⟩)
        ≤ round2 (weight_raw 10000 ⟨1.24, 50, 1.2, 0.8, 0.3, false⟩)) :=
  ⟨by norm_num,
   C5_infill_mono_under_thickness_bound 10000 1.24 1.2 0.8 0.3 false 20 50
     (by norm_num) (by norm_num) (by norm_num) (by norm_num) (by norm_num)
     (by norm_num) (by norm_num) (by norm_num)⟩

/-- C6 counterexample: with the default parameters, tripling the volume
from 10000 to 30000 mm^3 gives 21.35 g, while three times the 10000 mm^3
estimate of 7.12 g is 21.36 g: the ROUNDED output of `calculate_weight`
is not a linear function of the volume. -/
theorem C6_counterexample :
    calculate_weight (Except.ok 30000) pla_default_params = some (2135/100) ∧
    calculate_weight (Except.ok 10000) pla_default_params = some (712/100) ∧
    (2135/100 : ℚ) ≠ 3 * (712/100) := by
  refine ⟨?_, ?_, by norm_num⟩ <;>
    (rw [calculate_weight_ok]; norm_num [pla_default_params, weight_raw, round2, roundHalfEven])

/-- C6 (amended): the weight computed by `calculate_weight` is the
2-decimal rounding of a quantity `weight_raw` that IS exactly linear in
the volume and in the material density; linearity of the returned value
itself is broken only by the final rounding step. -/
theorem C6_linear_before_rounding (v k : ℚ) (p : PrintParams) :
    calculate_weight (Except.ok v) p = some (round2 (weight_raw v p)) ∧
    weight_raw (k * v) p = k * weight_raw v p ∧
    weight_raw v { p with material_density := k * p.material_density }
      = k * weight_raw v p := by
  refine ⟨rfl, ?_, ?_⟩ <;> (simp only [weight_raw]; ring)

end WeightEstimator
